import Mathlib

/-!
# Verification of the Electronics Workbench circuit model and analysis engine

Shallow embedding of `src/streamlit_electronics_workbench.py`.

Modelling conventions:
* Python floats are modelled as exact rationals (`ℚ`); the float constant
  `np.pi` is modelled as the exact rational value of the IEEE-754 double
  that NumPy exposes (`npPi` below).
* Python parameter dictionaries are modelled as association lists from
  `String` to `Value` (a rational number or a string, the two kinds of
  values that occur in the program).
* A computation that can raise (`TypeError` from arithmetic on a string,
  `ZeroDivisionError` from division by zero) is modelled in `Option`:
  `none` means the Python call raises.
* Calculated quantities can be the float `inf` (`float('inf')` in the
  source); `CalcVal` distinguishes a finite rational from infinity.
* The Streamlit session state (`circuit_components`, `connections`,
  `analysis_results`, `component_counter`) is the `WorkbenchState`
  record; the button handlers in `main` become pure state transformers.
  `analysis_results` starts as an empty dict in the source and only ever
  holds either that empty dict or a full analysis result; it is modelled
  as an `Option AnalysisResult` (initially `none`).
* The catalog entries' `symbol`, `units` and `color` fields are consumed
  only by the matplotlib renderer and the display layer, which are out of
  scope; only the `params` defaults are modelled.
-/

/-- A Python value stored in a component parameter dict: every parameter in
the program is either a float (modelled as `ℚ`) or a string. -/
inductive Value where
  | num (q : ℚ)
  | str (s : String)
  deriving DecidableEq, Repr

/-- `True` for numeric values, `false` for strings. -/
def valueIsNum : Value → Bool
  | Value.num _ => true
  | Value.str _ => false

/-- Python truthiness of a parameter value: a float is truthy iff nonzero,
a string iff non-empty (used by the `or` at line 352 of the source). -/
def pyTruthy : Value → Bool
  | Value.num q => q != 0
  | Value.str s => s != ""

/-- Extract a rational from a value; `none` models the `TypeError` Python
raises when the analysis does arithmetic on a string-valued parameter. -/
def asNum : Value → Option ℚ
  | Value.num q => some q
  | Value.str _ => none

/-- Parameter dictionaries: association lists keyed by parameter name. -/
abbrev Params := List (String × Value)

/-- Python's `dict.get(key, default)`. -/
def pyGet (p : Params) (k : String) (d : Value) : Value :=
  (p.lookup k).getD d

/-- A placed component: `id`, `type`, position and parameter dict, as in
the dicts appended to `st.session_state.circuit_components`. -/
structure Component where
  id : Nat
  type : String
  x : ℚ
  y : ℚ
  params : Params
  deriving DecidableEq, Repr

/-- A connection record `{'from_comp': ..., 'to_comp': ...}`. -/
structure Connection where
  from_comp : Nat
  to_comp : Nat
  deriving DecidableEq, Repr

/-- A calculated quantity: a finite float (exact rational model) or
`float('inf')`. -/
inductive CalcVal where
  | fin (x : ℚ)
  | inf
  deriving DecidableEq, Repr

/-- One entry of `results['component_analysis']`: id, type, a snapshot copy
of the params, and the optional `calculated` dict. -/
structure ComponentAnalysis where
  id : Nat
  type : String
  parameters : Params
  calculated : Option (List (String × CalcVal))
  deriving DecidableEq, Repr

/-- The `results` dict built by `calculate_circuit_parameters`.
`circuit_current` and `total_power` are `Option`s because in the source
those keys are only inserted by the final overall-circuit step; `none`
models the key being absent from the dict. -/
structure AnalysisResult where
  total_resistance : ℚ
  total_capacitance : ℚ
  total_inductance : ℚ
  voltage_sources : List ℚ
  power_consumption : ℚ
  component_analysis : List ComponentAnalysis
  circuit_current : Option ℚ
  total_power : Option ℚ
  deriving DecidableEq, Repr

/-- The initial `results` dict (lines 306-313 of the source). -/
def initResults : AnalysisResult :=
  { total_resistance := 0
    total_capacitance := 0
    total_inductance := 0
    voltage_sources := []
    power_consumption := 0
    component_analysis := []
    circuit_current := none
    total_power := none }

/-- `np.pi`, i.e. the IEEE-754 double nearest to π, as an exact rational:
884279719003555 / 2^48 = 3.141592653589793115997963468544185161590576171875. -/
def npPi : ℚ := 884279719003555 / 2 ^ 48

/-- The body of the `for comp in st.session_state.circuit_components` loop
of `calculate_circuit_parameters` (lines 316-370): one component's update
of the running `results`. `none` models the loop iteration raising
(`TypeError` on a string parameter in a numeric position, or
`ZeroDivisionError` when a Battery / AC Source has `internal_resistance`
equal to zero). -/
def analyzeComponent (results : AnalysisResult) (comp : Component) : Option AnalysisResult :=
  let base : ComponentAnalysis :=
    { id := comp.id, type := comp.type, parameters := comp.params, calculated := none }
  if comp.type = "Resistor" then
    match asNum (pyGet comp.params "resistance" (Value.num 0)) with
    | none => none
    | some resistance =>
      let current : ℚ := 0.001
      let power : ℚ := current ^ 2 * resistance
      let cal := [("power_dissipated", CalcVal.fin power),
                  ("voltage_drop", CalcVal.fin (current * resistance))]
      some { results with
        total_resistance := results.total_resistance + resistance
        component_analysis := results.component_analysis ++ [{ base with calculated := some cal }] }
  else if comp.type = "Capacitor" then
    match asNum (pyGet comp.params "capacitance" (Value.num 0)),
          asNum (pyGet comp.params "voltage_rating" (Value.num 0)) with
    | some capacitance, some voltage_rating =>
      let cal := [("energy_stored", CalcVal.fin (0.5 * capacitance * voltage_rating ^ 2)),
                  ("reactance_60hz",
                    if capacitance > 0 then CalcVal.fin (1 / (2 * npPi * 60 * capacitance))
                    else CalcVal.inf)]
      some { results with
        total_capacitance :=
          if capacitance > 0 then results.total_capacitance + capacitance
          else results.total_capacitance
        component_analysis := results.component_analysis ++ [{ base with calculated := some cal }] }
    | _, _ => none
  else if comp.type = "Inductor" then
    match asNum (pyGet comp.params "inductance" (Value.num 0)),
          asNum (pyGet comp.params "current_rating" (Value.num 0)) with
    | some inductance, some current_rating =>
      let cal := [("energy_stored", CalcVal.fin (0.5 * inductance * current_rating ^ 2)),
                  ("reactance_60hz", CalcVal.fin (2 * npPi * 60 * inductance))]
      some { results with
        total_inductance := results.total_inductance + inductance
        component_analysis := results.component_analysis ++ [{ base with calculated := some cal }] }
    | _, _ => none
  else if comp.type = "Battery" ∨ comp.type = "AC Source" then
    let voltageVal : Value :=
      if pyTruthy (pyGet comp.params "voltage" (Value.num 0)) then
        pyGet comp.params "voltage" (Value.num 0)
      else pyGet comp.params "voltage_rms" (Value.num 0)
    match asNum voltageVal, asNum (pyGet comp.params "internal_resistance" (Value.num 1)) with
    | some voltage, some internal_res =>
      if internal_res = 0 then none
      else
        let cal := [("max_power", CalcVal.fin (voltage ^ 2 / internal_res))]
        some { results with
          voltage_sources := results.voltage_sources ++ [voltage]
          component_analysis := results.component_analysis ++ [{ base with calculated := some cal }] }
    | _, _ => none
  else if comp.type = "Load" then
    match asNum (pyGet comp.params "power" (Value.num 0)),
          asNum (pyGet comp.params "voltage" (Value.num 0)) with
    | some power, some voltage =>
      if voltage > 0 then
        let current := power / voltage
        let resistance :=
          if current > 0 then CalcVal.fin (voltage / current) else CalcVal.inf
        let cal := [("current", CalcVal.fin current), ("resistance", resistance)]
        some { results with
          power_consumption := results.power_consumption + power
          component_analysis := results.component_analysis ++ [{ base with calculated := some cal }] }
      else
        some { results with
          power_consumption := results.power_consumption + power
          component_analysis := results.component_analysis ++ [base] }
    | _, _ => none
  else
    some { results with component_analysis := results.component_analysis ++ [base] }

/-- The overall-circuit step (lines 372-377): insert `circuit_current` and
`total_power` when there is a voltage source and positive total
resistance. -/
def finishAnalysis (results : AnalysisResult) : AnalysisResult :=
  if results.voltage_sources ≠ [] ∧ results.total_resistance > 0 then
    let total_voltage := results.voltage_sources.sum
    let circuit_current := total_voltage / results.total_resistance
    { results with
      circuit_current := some circuit_current
      total_power := some (total_voltage * circuit_current) }
  else results

/-- `calculate_circuit_parameters` as a function of the component sequence
it iterates over; `none` models the call raising. -/
def calcComponents (comps : List Component) : Option AnalysisResult :=
  (comps.foldlM analyzeComponent initResults).map finishAnalysis

/-- The Streamlit session state: the four keys initialised at lines
104-111 of the source. -/
structure WorkbenchState where
  circuit_components : List Component
  connections : List Connection
  analysis_results : Option AnalysisResult
  component_counter : Nat
  deriving DecidableEq, Repr

/-- The session state right after initialisation. -/
def initialState : WorkbenchState :=
  { circuit_components := [], connections := [], analysis_results := none
    component_counter := 0 }

/-- `calculate_circuit_parameters` reads only
`st.session_state.circuit_components` from the session state. -/
def calculate_circuit_parameters (s : WorkbenchState) : Option AnalysisResult :=
  calcComponents s.circuit_components

/-- The component catalog `COMPONENTS` (lines 22-101); only the `params`
defaults are modelled (symbol/units/color are renderer hints). -/
def COMPONENTS : List (String × Params) :=
  [("Resistor",
     [("resistance", Value.num 1000), ("power_rating", Value.num 0.25),
      ("tolerance", Value.num 5)]),
   ("Capacitor",
     [("capacitance", Value.num 0.0001), ("voltage_rating", Value.num 25),
      ("type", Value.str "Ceramic")]),
   ("Inductor",
     [("inductance", Value.num 0.001), ("current_rating", Value.num 1),
      ("resistance", Value.num 0.1)]),
   ("Diode",
     [("forward_voltage", Value.num 0.7), ("max_current", Value.num 1),
      ("reverse_voltage", Value.num 50)]),
   ("LED",
     [("forward_voltage", Value.num 2), ("forward_current", Value.num 0.02),
      ("color", Value.str "Red")]),
   ("Transistor (NPN)",
     [("beta", Value.num 100), ("vbe", Value.num 0.7), ("vce_sat", Value.num 0.2)]),
   ("Battery",
     [("voltage", Value.num 9), ("capacity", Value.num 1000),
      ("internal_resistance", Value.num 0.1)]),
   ("AC Source",
     [("voltage_rms", Value.num 120), ("frequency", Value.num 50),
      ("phase", Value.num 0)]),
   ("Ground", []),
   ("Switch",
     [("state", Value.str "Open"), ("contact_resistance", Value.num 0.01)]),
   ("Ammeter",
     [("range", Value.num 1), ("reading", Value.num 0), ("accuracy", Value.num 1)]),
   ("Voltmeter",
     [("range", Value.num 10), ("reading", Value.num 0), ("accuracy", Value.num 1)]),
   ("Load",
     [("power", Value.num 100), ("voltage", Value.num 12),
      ("type", Value.str "Resistive")])]

/-- The 13 catalog type names. -/
def catalogTypes : List String := COMPONENTS.map Prod.fst

/-- The Add-Component handler (lines 399-409): pre-increment the counter,
assign it as the new id, copy the catalog defaults, append. `none` is the
`UnknownComponentType` failure of the specification (the lookup
`COMPONENTS[selected_component]` would raise `KeyError`). -/
def addComponent (s : WorkbenchState) (selected : String) (x y : ℚ) :
    Option WorkbenchState :=
  match COMPONENTS.lookup selected with
  | none => none
  | some defaults =>
    let counter := s.component_counter + 1
    let newComponent : Component :=
      { id := counter, type := selected, x := x, y := y, params := defaults }
    some { s with
      component_counter := counter
      circuit_components := s.circuit_components ++ [newComponent] }

/-- Error kinds of the Connect-Components handler. -/
inductive ConnError where
  | SelfConnection
  | DuplicateConnection
  deriving DecidableEq, Repr

/-- The Connect-Components handler (lines 420-432): reject self-connection,
reject an exact ordered duplicate, otherwise append. The returned state is
the (possibly unchanged) session state; the second component reports the
failure kind. No existence check on the ids is performed. -/
def addConnection (s : WorkbenchState) (from_id to_id : Nat) :
    WorkbenchState × Option ConnError :=
  if from_id ≠ to_id then
    let connection : Connection := { from_comp := from_id, to_comp := to_id }
    if connection ∉ s.connections then
      ({ s with connections := s.connections ++ [connection] }, none)
    else (s, some ConnError.DuplicateConnection)
  else (s, some ConnError.SelfConnection)

/-- The Clear-Circuit handler (lines 440-444): components, connections and
counter reset; `analysis_results` is not touched. -/
def clearCircuit (s : WorkbenchState) : WorkbenchState :=
  { s with circuit_components := [], connections := [], component_counter := 0 }

/-- The Analyze-Circuit handler (lines 446-451): only runs when the
component list is non-empty; stores the fresh result. When the
analysis raises, the assignment never executes and the state is
unchanged. -/
def analyzeCircuit (s : WorkbenchState) : WorkbenchState :=
  if s.circuit_components ≠ [] then
    match calcComponents s.circuit_components with
    | some r => { s with analysis_results := some r }
    | none => s
  else s

/-- Error kind of the Update-Parameters handler. -/
inductive UpdateError where
  | ComponentNotFound
  deriving DecidableEq, Repr

/-- Replace the params of the first component with the given id, as the
in-place mutation `component['params'] = new_params` does after
`next(c for c in ... if c['id'] == comp_id)` picked that component. -/
def updateFirstParams : List Component → Nat → Params → List Component
  | [], _, _ => []
  | c :: rest, compId, newParams =>
    if c.id = compId then { c with params := newParams } :: rest
    else c :: updateFirstParams rest compId newParams

/-- The Update-Parameters handler (lines 474-499): locate the component by
id (the `next(...)` raises `StopIteration` when absent, the
`ComponentNotFound` of the specification) and overwrite its entire params
dict with `newParams`. -/
def updateParams (s : WorkbenchState) (compId : Nat) (newParams : Params) :
    WorkbenchState × Option UpdateError :=
  match s.circuit_components.find? (fun c => c.id == compId) with
  | none => (s, some UpdateError.ComponentNotFound)
  | some _ =>
    ({ s with circuit_components := updateFirstParams s.circuit_components compId newParams },
     none)

/-! ## Spec-side projections of a single analysis step

The functions below restate, per component, what one loop iteration of
`calculate_circuit_parameters` contributes to each field of the running
`results` dict.  They are total: where the Python iteration would raise,
they return an irrelevant default, and the characterization theorem
`analyzeComponent_characterization` only equates them with the real step
on the non-raising domain `stepOk`. -/

/-- `params.get(k, d)` read as a number, with `d` also substituted for a
string value (the string case never occurs on the non-raising domain). -/
def getQD (p : Params) (k : String) (d : ℚ) : ℚ :=
  match asNum (pyGet p k (Value.num d)) with
  | some q => q
  | none => d

/-- The effective source voltage of line 352:
`params.get('voltage', 0) or params.get('voltage_rms', 0)`. -/
def effVoltQ (p : Params) : ℚ :=
  if pyTruthy (pyGet p "voltage" (Value.num 0)) then getQD p "voltage" 0
  else getQD p "voltage_rms" 0

/-- Whether a component takes the Battery / AC Source branch. -/
def isSource (c : Component) : Bool :=
  c.type == "Battery" || c.type == "AC Source"

/-- Contribution of one component to `total_resistance`. -/
def resContrib (c : Component) : ℚ :=
  if c.type = "Resistor" then getQD c.params "resistance" 0 else 0

/-- Contribution of one component to `total_capacitance` (only a Capacitor
with positive capacitance contributes). -/
def capContrib (c : Component) : ℚ :=
  if c.type = "Capacitor" ∧ getQD c.params "capacitance" 0 > 0 then
    getQD c.params "capacitance" 0
  else 0

/-- Contribution of one component to `total_inductance`. -/
def indContrib (c : Component) : ℚ :=
  if c.type = "Inductor" then getQD c.params "inductance" 0 else 0

/-- Contribution of one component to `power_consumption`. -/
def loadPower (c : Component) : ℚ :=
  if c.type = "Load" then getQD c.params "power" 0 else 0

/-- The voltage one component appends to `voltage_sources`, if any. -/
def srcVolt (c : Component) : Option ℚ :=
  if isSource c then some (effVoltQ c.params) else none

/-- The `calculated` dict of one component's analysis entry. -/
def calculatedSpec (c : Component) : Option (List (String × CalcVal)) :=
  if c.type = "Resistor" then
    some [("power_dissipated", CalcVal.fin ((0.001 : ℚ) ^ 2 * getQD c.params "resistance" 0)),
          ("voltage_drop", CalcVal.fin ((0.001 : ℚ) * getQD c.params "resistance" 0))]
  else if c.type = "Capacitor" then
    some [("energy_stored",
            CalcVal.fin (0.5 * getQD c.params "capacitance" 0 * getQD c.params "voltage_rating" 0 ^ 2)),
          ("reactance_60hz",
            if getQD c.params "capacitance" 0 > 0 then
              CalcVal.fin (1 / (2 * npPi * 60 * getQD c.params "capacitance" 0))
            else CalcVal.inf)]
  else if c.type = "Inductor" then
    some [("energy_stored",
            CalcVal.fin (0.5 * getQD c.params "inductance" 0 * getQD c.params "current_rating" 0 ^ 2)),
          ("reactance_60hz", CalcVal.fin (2 * npPi * 60 * getQD c.params "inductance" 0))]
  else if c.type = "Battery" ∨ c.type = "AC Source" then
    some [("max_power",
            CalcVal.fin (effVoltQ c.params ^ 2 / getQD c.params "internal_resistance" 1))]
  else if c.type = "Load" then
    if getQD c.params "voltage" 0 > 0 then
      some [("current",
              CalcVal.fin (getQD c.params "power" 0 / getQD c.params "voltage" 0)),
            ("resistance",
              if getQD c.params "power" 0 / getQD c.params "voltage" 0 > 0 then
                CalcVal.fin (getQD c.params "voltage" 0 /
                  (getQD c.params "power" 0 / getQD c.params "voltage" 0))
              else CalcVal.inf)]
    else none
  else none

/-- The full analysis entry one component appends to `component_analysis`. -/
def entrySpecD (c : Component) : ComponentAnalysis :=
  { id := c.id, type := c.type, parameters := c.params, calculated := calculatedSpec c }

/-- One analysis step as a total function (the real step agrees with it
whenever it does not raise). -/
def stepD (results : AnalysisResult) (c : Component) : AnalysisResult :=
  { results with
    total_resistance := results.total_resistance + resContrib c
    total_capacitance := results.total_capacitance + capContrib c
    total_inductance := results.total_inductance + indContrib c
    voltage_sources := results.voltage_sources ++ (srcVolt c).toList
    power_consumption := results.power_consumption + loadPower c
    component_analysis := results.component_analysis ++ [entrySpecD c] }

/-- `true` when looking up `k` does not hit a string value (so numeric use
of `params.get(k, d)` does not raise). -/
def numAt (p : Params) (k : String) : Bool :=
  match p.lookup k with
  | some (Value.str _) => false
  | _ => true

/-- The exact non-raising domain of one analysis step. -/
def stepOk (c : Component) : Bool :=
  if c.type = "Resistor" then numAt c.params "resistance"
  else if c.type = "Capacitor" then
    numAt c.params "capacitance" && numAt c.params "voltage_rating"
  else if c.type = "Inductor" then
    numAt c.params "inductance" && numAt c.params "current_rating"
  else if c.type = "Battery" ∨ c.type = "AC Source" then
    (asNum (if pyTruthy (pyGet c.params "voltage" (Value.num 0)) then
              pyGet c.params "voltage" (Value.num 0)
            else pyGet c.params "voltage_rms" (Value.num 0))).isSome
      && numAt c.params "internal_resistance"
      && (getQD c.params "internal_resistance" 1 != 0)
  else if c.type = "Load" then
    numAt c.params "power" && numAt c.params "voltage"
  else true

/-! ## Concrete circuits and states used in the theorems below -/

def csC2 : List Component :=
  [⟨1, "Resistor", 2, 2,
     [("resistance", Value.num 2000), ("power_rating", Value.num 0.25),
      ("tolerance", Value.num 5)]⟩,
   ⟨2, "Battery", 4, 2,
     [("voltage", Value.num 9), ("capacity", Value.num 1000),
      ("internal_resistance", Value.num 0.1)]⟩]

def csC1w : List Component :=
  [⟨1, "Resistor", 2, 2, [("resistance", Value.num 2000)]⟩,
   ⟨2, "Battery", 4, 2, [("voltage", Value.num 9), ("internal_resistance", Value.num 1)]⟩,
   ⟨3, "Ground", 5, 2, []⟩]

def csC4w : List Component :=
  [⟨1, "Battery", 2, 2,
    [("voltage", Value.num 9), ("internal_resistance", Value.num 1)]⟩]

def csC5w : List Component :=
  [⟨1, "Load", 2, 2,
    [("power", Value.num 50), ("voltage", Value.num 10),
     ("type", Value.str "Resistive")]⟩]

def addMany (s : WorkbenchState) : List (String × ℚ × ℚ) → Option WorkbenchState
  | [] => some s
  | sp :: rest =>
    match addComponent s sp.1 sp.2.1 sp.2.2 with
    | none => none
    | some s1 => addMany s1 rest

def specsC6w : List (String × ℚ × ℚ) :=
  [("Resistor", 2, 2), ("Battery", 4, 2), ("Load", 6, 2)]

def csC7 : List Component :=
  [⟨1, "Capacitor", 2, 2,
    [("capacitance", Value.num 0.0001), ("voltage_rating", Value.num 25),
     ("type", Value.str "Ceramic")]⟩]

def sC8w : WorkbenchState :=
  { circuit_components :=
      [⟨1, "Load", 2, 2, [("power", Value.num 100), ("voltage", Value.num 12)]⟩]
    connections := []
    analysis_results := none
    component_counter := 1 }

theorem numAt_iff (p : Params) (k : String) (d : ℚ) :
    (asNum (pyGet p k (Value.num d))).isSome = numAt p k := by
  unfold numAt pyGet
  cases h : p.lookup k with
  | none => simp [h, asNum]
  | some v => cases v <;> simp [h, asNum]

theorem getQD_eq (p : Params) (k : String) (d q : ℚ)
    (h : asNum (pyGet p k (Value.num d)) = some q) : getQD p k d = q := by
  unfold getQD
  rw [h]

theorem analyzeComponent_char (acc : AnalysisResult) (c : Component) :
    analyzeComponent acc c = if stepOk c then some (stepD acc c) else none := by
  by_cases h1 : c.type = "Resistor"
  · cases hr : asNum (pyGet c.params "resistance" (Value.num 0)) with
    | none =>
      have hn : numAt c.params "resistance" = false := by
        rw [← numAt_iff c.params "resistance" 0, hr]; rfl
      simp [analyzeComponent, stepOk, h1, hr, hn]
    | some q =>
      have hn : numAt c.params "resistance" = true := by
        rw [← numAt_iff c.params "resistance" 0, hr]; rfl
      have hg : getQD c.params "resistance" 0 = q := getQD_eq _ _ _ _ hr
      simp [analyzeComponent, stepOk, h1, hr, hn, stepD, resContrib, capContrib,
            indContrib, loadPower, srcVolt, isSource, entrySpecD, calculatedSpec, hg]
  by_cases h2 : c.type = "Capacitor"
  · cases hc : asNum (pyGet c.params "capacitance" (Value.num 0)) with
    | none =>
      have hn : numAt c.params "capacitance" = false := by
        rw [← numAt_iff c.params "capacitance" 0, hc]; rfl
      simp [analyzeComponent, stepOk, h2, hc, hn]
    | some q =>
      have hn : numAt c.params "capacitance" = true := by
        rw [← numAt_iff c.params "capacitance" 0, hc]; rfl
      have hg : getQD c.params "capacitance" 0 = q := getQD_eq _ _ _ _ hc
      cases hv : asNum (pyGet c.params "voltage_rating" (Value.num 0)) with
      | none =>
        have hn2 : numAt c.params "voltage_rating" = false := by
          rw [← numAt_iff c.params "voltage_rating" 0, hv]; rfl
        simp [analyzeComponent, stepOk, h2, hc, hv, hn, hn2]
      | some vr =>
        have hn2 : numAt c.params "voltage_rating" = true := by
          rw [← numAt_iff c.params "voltage_rating" 0, hv]; rfl
        have hg2 : getQD c.params "voltage_rating" 0 = vr := getQD_eq _ _ _ _ hv
        simp [analyzeComponent, stepOk, h2, hc, hv, hn, hn2, stepD, resContrib,
              capContrib, indContrib, loadPower, srcVolt, isSource, entrySpecD,
              calculatedSpec, hg, hg2]
        split <;> simp
  by_cases h3 : c.type = "Inductor"
  · cases hc : asNum (pyGet c.params "inductance" (Value.num 0)) with
    | none =>
      have hn : numAt c.params "inductance" = false := by
        rw [← numAt_iff c.params "inductance" 0, hc]; rfl
      simp [analyzeComponent, stepOk, h3, hc, hn]
    | some q =>
      have hn : numAt c.params "inductance" = true := by
        rw [← numAt_iff c.params "inductance" 0, hc]; rfl
      have hg : getQD c.params "inductance" 0 = q := getQD_eq _ _ _ _ hc
      cases hv : asNum (pyGet c.params "current_rating" (Value.num 0)) with
      | none =>
        have hn2 : numAt c.params "current_rating" = false := by
          rw [← numAt_iff c.params "current_rating" 0, hv]; rfl
        simp [analyzeComponent, stepOk, h3, hc, hv, hn, hn2]
      | some cr =>
        have hn2 : numAt c.params "current_rating" = true := by
          rw [← numAt_iff c.params "current_rating" 0, hv]; rfl
        have hg2 : getQD c.params "current_rating" 0 = cr := getQD_eq _ _ _ _ hv
        simp [analyzeComponent, stepOk, h3, hc, hv, hn, hn2, stepD, resContrib,
              capContrib, indContrib, loadPower, srcVolt, isSource, entrySpecD,
              calculatedSpec, hg, hg2]
  by_cases h4 : c.type = "Battery" ∨ c.type = "AC Source"
  · cases hv : asNum (if pyTruthy (pyGet c.params "voltage" (Value.num 0)) then
        pyGet c.params "voltage" (Value.num 0)
      else pyGet c.params "voltage_rms" (Value.num 0)) with
    | none =>
      rcases h4 with h4 | h4 <;>
        simp [analyzeComponent, stepOk, h4, hv]
    | some v =>
      cases hi : asNum (pyGet c.params "internal_resistance" (Value.num 1)) with
      | none =>
        have hn : numAt c.params "internal_resistance" = false := by
          rw [← numAt_iff c.params "internal_resistance" 1, hi]; rfl
        rcases h4 with h4 | h4 <;>
          simp [analyzeComponent, stepOk, h4, hv, hi, hn]
      | some ir =>
        have hn : numAt c.params "internal_resistance" = true := by
          rw [← numAt_iff c.params "internal_resistance" 1, hi]; rfl
        have hgi : getQD c.params "internal_resistance" 1 = ir := getQD_eq _ _ _ _ hi
        have hev : effVoltQ c.params = v := by
          unfold effVoltQ
          by_cases ht : pyTruthy (pyGet c.params "voltage" (Value.num 0))
          · rw [if_pos ht]
            rw [if_pos ht] at hv
            exact getQD_eq _ _ _ _ hv
          · rw [if_neg ht]
            rw [if_neg ht] at hv
            exact getQD_eq _ _ _ _ hv
        by_cases hz : ir = 0
        · rcases h4 with h4 | h4 <;>
            simp [analyzeComponent, stepOk, h4, hv, hi, hn, hgi, hz]
        · rcases h4 with h4 | h4 <;>
            simp [analyzeComponent, stepOk, h4, hv, hi, hn, hgi, hz, stepD,
                  resContrib, capContrib, indContrib, loadPower, srcVolt, isSource,
                  entrySpecD, calculatedSpec, hev]
  by_cases h5 : c.type = "Load"
  · cases hp : asNum (pyGet c.params "power" (Value.num 0)) with
    | none =>
      have hn : numAt c.params "power" = false := by
        rw [← numAt_iff c.params "power" 0, hp]; rfl
      simp [analyzeComponent, stepOk, h5, hp, hn] at h4 ⊢
    | some p =>
      have hn : numAt c.params "power" = true := by
        rw [← numAt_iff c.params "power" 0, hp]; rfl
      have hg : getQD c.params "power" 0 = p := getQD_eq _ _ _ _ hp
      cases hv : asNum (pyGet c.params "voltage" (Value.num 0)) with
      | none =>
        have hn2 : numAt c.params "voltage" = false := by
          rw [← numAt_iff c.params "voltage" 0, hv]; rfl
        simp [analyzeComponent, stepOk, h5, hp, hv, hn, hn2]
      | some v =>
        have hn2 : numAt c.params "voltage" = true := by
          rw [← numAt_iff c.params "voltage" 0, hv]; rfl
        have hg2 : getQD c.params "voltage" 0 = v := getQD_eq _ _ _ _ hv
        by_cases hv0 : v > 0
        · simp [analyzeComponent, stepOk, h5, hp, hv, hn, hn2, hv0, stepD,
                resContrib, capContrib, indContrib, loadPower, srcVolt, isSource,
                entrySpecD, calculatedSpec, hg, hg2]
        · simp [analyzeComponent, stepOk, h5, hp, hv, hn, hn2, hv0, stepD,
                resContrib, capContrib, indContrib, loadPower, srcVolt, isSource,
                entrySpecD, calculatedSpec, hg, hg2]
  · push_neg at h4
    simp [analyzeComponent, stepOk, h1, h2, h3, h4.1, h4.2, h5, stepD, resContrib,
          capContrib, indContrib, loadPower, srcVolt, isSource, entrySpecD,
          calculatedSpec]

theorem foldlM_analyze (cs : List Component) (acc : AnalysisResult) :
    cs.foldlM analyzeComponent acc =
      if cs.all stepOk then some (cs.foldl stepD acc) else none := by
  induction cs generalizing acc with
  | nil => simp
  | cons c cs ih =>
    rw [List.foldlM_cons, analyzeComponent_char]
    by_cases h : stepOk c
    · simp [h, ih]
    · simp [h]

theorem calcComponents_char (cs : List Component) :
    calcComponents cs =
      if cs.all stepOk then some (finishAnalysis (cs.foldl stepD initResults))
      else none := by
  unfold calcComponents
  rw [foldlM_analyze]
  by_cases h : cs.all stepOk <;> simp [h]

theorem foldl_stepD_tr (cs : List Component) (acc : AnalysisResult) :
    (cs.foldl stepD acc).total_resistance =
      acc.total_resistance + (cs.map resContrib).sum := by
  induction cs generalizing acc with
  | nil => simp
  | cons c cs ih => simp [ih, stepD]; ring

theorem foldl_stepD_tc (cs : List Component) (acc : AnalysisResult) :
    (cs.foldl stepD acc).total_capacitance =
      acc.total_capacitance + (cs.map capContrib).sum := by
  induction cs generalizing acc with
  | nil => simp
  | cons c cs ih => simp [ih, stepD]; ring

theorem foldl_stepD_pc (cs : List Component) (acc : AnalysisResult) :
    (cs.foldl stepD acc).power_consumption =
      acc.power_consumption + (cs.map loadPower).sum := by
  induction cs generalizing acc with
  | nil => simp
  | cons c cs ih => simp [ih, stepD]; ring

theorem foldl_stepD_vs (cs : List Component) (acc : AnalysisResult) :
    (cs.foldl stepD acc).voltage_sources =
      acc.voltage_sources ++ cs.filterMap srcVolt := by
  induction cs generalizing acc with
  | nil => simp
  | cons c cs ih =>
    rw [List.foldl_cons, ih, List.filterMap_cons]
    cases h : srcVolt c <;> simp [stepD, h]

theorem foldl_stepD_ca (cs : List Component) (acc : AnalysisResult) :
    (cs.foldl stepD acc).component_analysis =
      acc.component_analysis ++ cs.map entrySpecD := by
  induction cs generalizing acc with
  | nil => simp
  | cons c cs ih => simp [ih, stepD]

theorem foldl_stepD_cc (cs : List Component) (acc : AnalysisResult) :
    (cs.foldl stepD acc).circuit_current = acc.circuit_current := by
  induction cs generalizing acc with
  | nil => simp
  | cons c cs ih => simp [ih, stepD]

theorem foldl_stepD_tp (cs : List Component) (acc : AnalysisResult) :
    (cs.foldl stepD acc).total_power = acc.total_power := by
  induction cs generalizing acc with
  | nil => simp
  | cons c cs ih => simp [ih, stepD]

theorem finishAnalysis_fields (x : AnalysisResult) :
    (finishAnalysis x).total_resistance = x.total_resistance
    ∧ (finishAnalysis x).total_capacitance = x.total_capacitance
    ∧ (finishAnalysis x).total_inductance = x.total_inductance
    ∧ (finishAnalysis x).voltage_sources = x.voltage_sources
    ∧ (finishAnalysis x).power_consumption = x.power_consumption
    ∧ (finishAnalysis x).component_analysis = x.component_analysis := by
  unfold finishAnalysis
  split <;> simp

theorem calc_fields (cs : List Component) (r : AnalysisResult)
    (h : calcComponents cs = some r) :
    r.total_resistance = (cs.map resContrib).sum
    ∧ r.total_capacitance = (cs.map capContrib).sum
    ∧ r.power_consumption = (cs.map loadPower).sum
    ∧ r.voltage_sources = cs.filterMap srcVolt
    ∧ r.component_analysis = cs.map entrySpecD := by
  rw [calcComponents_char] at h
  by_cases hall : cs.all stepOk
  · rw [if_pos hall] at h
    obtain rfl := (Option.some.inj h).symm
    obtain ⟨f1, f2, f3, f4, f5, f6⟩ := finishAnalysis_fields (cs.foldl stepD initResults)
    rw [f1, f2, f4, f5, f6, foldl_stepD_tr, foldl_stepD_tc, foldl_stepD_pc,
        foldl_stepD_vs, foldl_stepD_ca]
    simp [initResults]
  · simp [hall] at h

theorem calc_entry (cs : List Component) (r : AnalysisResult)
    (h : calcComponents cs = some r) (i : Nat) (hi : i < cs.length) :
    ∃ hj : i < r.component_analysis.length,
      r.component_analysis.get ⟨i, hj⟩ = entrySpecD (cs.get ⟨i, hi⟩) := by
  have hca := (calc_fields cs r h).2.2.2.2
  have hj : i < r.component_analysis.length := by
    rw [hca, List.length_map]
    exact hi
  refine ⟨hj, ?_⟩
  simp only [List.get_eq_getElem]
  simp only [hca, List.getElem_map]

theorem lookup_val_mem (p : Params) (k : String) (v : Value)
    (h : List.lookup k p = some v) : v ∈ p.map Prod.snd := by
  induction p with
  | nil => simp [List.lookup] at h
  | cons kv rest ih =>
    rw [List.lookup] at h
    cases hk : (k == kv.1) with
    | true =>
      rw [hk] at h
      simp only [Option.some.inj] at h
      have hv : kv.2 = v := by
        cases h
        rfl
      simp [← hv]
    | false =>
      rw [hk] at h
      simp only [List.map_cons, List.mem_cons]
      exact Or.inr (ih h)

theorem numAt_of_allNum (p : Params)
    (h : p.all (fun kv => valueIsNum kv.2) = true) (k : String) :
    numAt p k = true := by
  unfold numAt
  cases hl : p.lookup k with
  | none => rfl
  | some v =>
    cases v with
    | num q => rfl
    | str s =>
      exfalso
      have hmem := lookup_val_mem p k (Value.str s) hl
      rw [List.all_eq_true] at h
      obtain ⟨kv, hkv, hsnd⟩ := List.mem_map.mp hmem
      have := h kv hkv
      rw [hsnd] at this
      simp [valueIsNum] at this

theorem stepOk_of (c : Component)
    (hnum : c.params.all (fun kv => valueIsNum kv.2) = true)
    (hir : (c.type = "Battery" ∨ c.type = "AC Source") →
        c.params.lookup "internal_resistance" ≠ some (Value.num 0)) :
    stepOk c = true := by
  have hA : ∀ k, numAt c.params k = true := numAt_of_allNum c.params hnum
  have hB : ∀ k d, (asNum (pyGet c.params k (Value.num d))).isSome = true := by
    intro k d
    rw [numAt_iff]
    exact hA k
  unfold stepOk
  by_cases h1 : c.type = "Resistor"
  · simp [h1, hA]
  by_cases h2 : c.type = "Capacitor"
  · simp [h1, h2, hA]
  by_cases h3 : c.type = "Inductor"
  · simp [h1, h2, h3, hA]
  by_cases h4 : c.type = "Battery" ∨ c.type = "AC Source"
  · have hgi : getQD c.params "internal_resistance" 1 ≠ 0 := by
      unfold getQD pyGet
      cases hl : c.params.lookup "internal_resistance" with
      | none => simp [asNum]
      | some v =>
        cases v with
        | num q =>
          simp only [Option.getD_some, asNum]
          intro hq
          exact hir h4 (by rw [hl, hq])
        | str s => simp [asNum]
    have hV : (asNum (if pyTruthy (pyGet c.params "voltage" (Value.num 0)) then
        pyGet c.params "voltage" (Value.num 0)
      else pyGet c.params "voltage_rms" (Value.num 0))).isSome = true := by
      by_cases ht : pyTruthy (pyGet c.params "voltage" (Value.num 0))
      · rw [if_pos ht]; exact hB _ _
      · rw [if_neg ht]; exact hB _ _
    rcases h4 with h4 | h4 <;> simp [h1, h2, h3, h4, hA, hV, hgi]
  by_cases h5 : c.type = "Load"
  · push_neg at h4
    simp [h1, h2, h3, h4.1, h4.2, h5, hA]
  · push_neg at h4
    simp [h1, h2, h3, h4.1, h4.2, h5]

theorem finishAnalysis_overall (x : AnalysisResult) (hcc : x.circuit_current = none)
    (htp : x.total_power = none) :
    (((finishAnalysis x).circuit_current.isSome ∧ (finishAnalysis x).total_power.isSome) ↔
      ((finishAnalysis x).voltage_sources ≠ [] ∧ (finishAnalysis x).total_resistance > 0))
    ∧ ((finishAnalysis x).voltage_sources ≠ [] → (finishAnalysis x).total_resistance > 0 →
        (finishAnalysis x).circuit_current =
          some ((finishAnalysis x).voltage_sources.sum / (finishAnalysis x).total_resistance)
        ∧ (finishAnalysis x).total_power =
          some ((finishAnalysis x).voltage_sources.sum *
            ((finishAnalysis x).voltage_sources.sum / (finishAnalysis x).total_resistance))) := by
  unfold finishAnalysis
  by_cases hcond : x.voltage_sources ≠ [] ∧ x.total_resistance > 0
  · rw [if_pos hcond]
    simp [hcond.1, hcond.2]
  · rw [if_neg hcond]
    exact ⟨by simp [hcc, htp, hcond], fun h1 h2 => absurd ⟨h1, h2⟩ hcond⟩

/-- C2: the analysis result carries `circuit_current` and `total_power`
exactly when `voltage_sources` is non-empty and `total_resistance > 0`,
with `circuit_current = sum(voltage_sources) / total_resistance` and
`total_power = sum(voltage_sources) * circuit_current`; and on the
one-Resistor(2000 Ω)/one-Battery(9 V, 0.1 Ω) circuit the totals are
2000 Ω, [9] V, 0.0045 A, 0.0405 W and the resistor entry shows a 2 V
drop. -/
theorem C2_overall (cs : List Component) (r : AnalysisResult)
    (h : calcComponents cs = some r) :
    ((r.circuit_current.isSome ∧ r.total_power.isSome) ↔
      (r.voltage_sources ≠ [] ∧ r.total_resistance > 0))
    ∧ (r.voltage_sources ≠ [] → r.total_resistance > 0 →
        r.circuit_current = some (r.voltage_sources.sum / r.total_resistance)
        ∧ r.total_power =
            some (r.voltage_sources.sum * (r.voltage_sources.sum / r.total_resistance)))
    ∧ (calcComponents csC2).map
        (fun res => (res.total_resistance, res.voltage_sources, res.circuit_current,
                     res.total_power, res.component_analysis.map ComponentAnalysis.calculated))
      = some (2000, [9], some 0.0045, some 0.0405,
          [some [("power_dissipated", CalcVal.fin 0.002), ("voltage_drop", CalcVal.fin 2)],
           some [("max_power", CalcVal.fin 810)]]) := by
  have hsc : (calcComponents csC2).map
        (fun res => (res.total_resistance, res.voltage_sources, res.circuit_current,
                     res.total_power, res.component_analysis.map ComponentAnalysis.calculated))
      = some (2000, [9], some 0.0045, some 0.0405,
          [some [("power_dissipated", CalcVal.fin 0.002), ("voltage_drop", CalcVal.fin 2)],
           some [("max_power", CalcVal.fin 810)]]) := by
    simp [csC2, calcComponents, analyzeComponent, finishAnalysis, pyGet, asNum,
          pyTruthy, List.lookup, List.foldlM, initResults]
    norm_num
  rw [calcComponents_char] at h
  by_cases hall : cs.all stepOk
  · rw [if_pos hall] at h
    obtain rfl := (Option.some.inj h).symm
    have hcc : (cs.foldl stepD initResults).circuit_current = none := by
      rw [foldl_stepD_cc]; rfl
    have htp : (cs.foldl stepD initResults).total_power = none := by
      rw [foldl_stepD_tp]; rfl
    obtain ⟨g1, g2⟩ := finishAnalysis_overall _ hcc htp
    exact ⟨g1, g2, hsc⟩
  · simp [hall] at h

theorem C2_overall_witness :
    (((calcComponents csC2).getD initResults).circuit_current.isSome ∧
      ((calcComponents csC2).getD initResults).total_power.isSome) ↔
      (((calcComponents csC2).getD initResults).voltage_sources ≠ [] ∧
       ((calcComponents csC2).getD initResults).total_resistance > 0) :=
  (C2_overall csC2 ((calcComponents csC2).getD initResults)
    (by
      simp [csC2, calcComponents, analyzeComponent, pyGet, asNum,
            pyTruthy, List.lookup, List.foldlM, initResults]
      norm_num [finishAnalysis])).1

/-- C1 (amended): the analysis is total on every circuit whose components
have one of the 13 catalog types and numeric parameter values, provided no
Battery / AC Source carries an explicit `internal_resistance` of 0 (that
case raises `ZeroDivisionError`); any missing parameter is substituted
with 0, except `internal_resistance`, which is substituted with 1. -/
theorem C1_analysis_total (cs : List Component)
    (htypes : ∀ c ∈ cs, c.type ∈ catalogTypes)
    (hnum : ∀ c ∈ cs, c.params.all (fun kv => valueIsNum kv.2) = true)
    (hir : ∀ c ∈ cs, (c.type = "Battery" ∨ c.type = "AC Source") →
        c.params.lookup "internal_resistance" ≠ some (Value.num 0)) :
    (calcComponents cs).isSome = true := by
  rw [calcComponents_char]
  have hall : cs.all stepOk = true := by
    rw [List.all_eq_true]
    exact fun c hc => stepOk_of c (hnum c hc) (hir c hc)
  rw [if_pos hall]
  rfl

theorem C1_analysis_total_witness : (calcComponents csC1w).isSome = true :=
  C1_analysis_total csC1w
    (by simp [csC1w, catalogTypes, COMPONENTS])
    (by
      simp [csC1w]
      exact ⟨rfl, fun a b hab => by rcases hab with ⟨h1, rfl⟩ | ⟨h1, rfl⟩ <;> rfl⟩)
    (by simp [csC1w, List.lookup])

/-- C1 counterexample: a Battery whose `internal_resistance` parameter is
explicitly 0 makes `calculate_circuit_parameters` raise
`ZeroDivisionError` (modelled as `none`), so the analysis is not total as
claimed. -/
theorem C1_divzero_cex :
    calcComponents
      [⟨1, "Battery", 2, 2,
        [("voltage", Value.num 9), ("capacity", Value.num 1000),
         ("internal_resistance", Value.num 0)]⟩] = none := by
  simp [calcComponents, analyzeComponent, pyGet, asNum, pyTruthy, List.lookup,
        List.foldlM]

/-- C3: `addConnection` fails with `SelfConnection` exactly on `a = b`,
fails with `DuplicateConnection` exactly when the ordered pair `(a, b)` is
already present (so `(a, b)` then `(b, a)` both succeed), leaves the
connection set unchanged on failure, and performs no existence check on
the ids (the state `s`, hence its component list, is arbitrary). -/
theorem C3_addConnection (s : WorkbenchState) (a b : Nat)
    (hs : ∀ conn ∈ s.connections, conn.from_comp ≠ conn.to_comp) :
    ((addConnection s a b).2 = some ConnError.SelfConnection ↔ a = b)
    ∧ ((addConnection s a b).2 = some ConnError.DuplicateConnection ↔
        (⟨a, b⟩ : Connection) ∈ s.connections)
    ∧ ((addConnection s a b).2.isSome → (addConnection s a b).1 = s)
    ∧ ((addConnection s a b).2 = none →
        (addConnection s a b).1.connections = s.connections ++ [⟨a, b⟩])
    ∧ (addConnection s a b).1.circuit_components = s.circuit_components
    ∧ (a ≠ b → (⟨a, b⟩ : Connection) ∉ s.connections →
        (addConnection s a b).2 = none
        ∧ (addConnection ((addConnection s a b).1) a b).2 =
            some ConnError.DuplicateConnection
        ∧ ((⟨b, a⟩ : Connection) ∉ s.connections →
            (addConnection ((addConnection s a b).1) b a).2 = none)) := by
  by_cases hab : a = b
  · subst hab
    have hnm : (⟨a, a⟩ : Connection) ∉ s.connections := fun hmem => hs _ hmem rfl
    simp [addConnection, hnm]
  · by_cases hm : (⟨a, b⟩ : Connection) ∈ s.connections
    · simp [addConnection, hab, hm]
    · have hm2 : (⟨a, b⟩ : Connection) ∈ s.connections ++ [(⟨a, b⟩ : Connection)] := by
        simp
      have hm3 : (⟨b, a⟩ : Connection) ∉ s.connections →
          (⟨b, a⟩ : Connection) ∉ s.connections ++ [(⟨a, b⟩ : Connection)] := by
        intro hnb hmem
        rcases List.mem_append.mp hmem with hx | hx
        · exact hnb hx
        · simp [Connection.mk.injEq] at hx
          exact hab hx.2
      constructor
      · simp [addConnection, hab, hm]
      constructor
      · simp [addConnection, hab, hm]
      constructor
      · simp [addConnection, hab, hm]
      constructor
      · simp [addConnection, hab, hm]
      constructor
      · simp [addConnection, hab, hm]
      · intro _ _
        refine ⟨by simp [addConnection, hab, hm], ?_, ?_⟩
        · simp [addConnection, hab, hm, hm2]
        · intro hnb
          have := hm3 hnb
          simp [addConnection, hab, hm, Ne.symm hab, this]

theorem C3_addConnection_witness :
    (addConnection initialState 1 2).2 = none ∧
    (addConnection ((addConnection initialState 1 2).1) 1 2).2 =
      some ConnError.DuplicateConnection :=
  ⟨((C3_addConnection initialState 1 2 (by simp [initialState])).2.2.2.2.2
      (by norm_num) (by simp [initialState])).1,
   ((C3_addConnection initialState 1 2 (by simp [initialState])).2.2.2.2.2
      (by norm_num) (by simp [initialState])).2.1⟩

theorem calculatedSpec_source (c : Component)
    (ht : c.type = "Battery" ∨ c.type = "AC Source") :
    calculatedSpec c =
      some [("max_power", CalcVal.fin (effVoltQ c.params ^ 2 /
        getQD c.params "internal_resistance" 1))] := by
  unfold calculatedSpec
  rcases ht with ht | ht <;> simp [ht]

theorem calculatedSpec_capacitor (c : Component) (ht : c.type = "Capacitor") :
    calculatedSpec c =
      some [("energy_stored", CalcVal.fin (0.5 * getQD c.params "capacitance" 0 *
              getQD c.params "voltage_rating" 0 ^ 2)),
            ("reactance_60hz",
              if getQD c.params "capacitance" 0 > 0 then
                CalcVal.fin (1 / (2 * npPi * 60 * getQD c.params "capacitance" 0))
              else CalcVal.inf)] := by
  unfold calculatedSpec
  simp [ht]

theorem calculatedSpec_load (c : Component) (ht : c.type = "Load") :
    calculatedSpec c =
      (if getQD c.params "voltage" 0 > 0 then
        some [("current", CalcVal.fin (getQD c.params "power" 0 /
                getQD c.params "voltage" 0)),
              ("resistance",
                if getQD c.params "power" 0 > 0 then
                  CalcVal.fin (getQD c.params "voltage" 0 /
                    (getQD c.params "power" 0 / getQD c.params "voltage" 0))
                else CalcVal.inf)]
      else none) := by
  have hiff : (0 < getQD c.params "voltage" 0) →
      ((0 < getQD c.params "power" 0 / getQD c.params "voltage" 0) ↔
        0 < getQD c.params "power" 0) := by
    intro hv
    constructor
    · intro hd
      have hm := mul_pos hd hv
      rwa [div_mul_cancel₀ _ (ne_of_gt hv)] at hm
    · intro hp
      exact div_pos hp hv
  unfold calculatedSpec
  simp only [ht]
  by_cases hv : (0 : ℚ) < getQD c.params "voltage" 0
  · simp only [gt_iff_lt, if_pos hv]
    simp [if_congr (hiff hv) rfl rfl]
  · simp only [gt_iff_lt, if_neg hv]
    simp

/-- C4 counterexample: a Battery whose params dict carries only
`voltage_rms = 120` (its `voltage` key is absent, so reads as 0) appends
120 — not its `voltage` parameter's value of 0 — to `voltage_sources`,
because line 352 falls back through `or` to `voltage_rms` for a falsy
`voltage`, for Batteries as well. -/
theorem C4_or_fallback_cex :
    (calcComponents [⟨1, "Battery", 2, 2, [("voltage_rms", Value.num 120)]⟩]).map
        AnalysisResult.voltage_sources = some [120]
    ∧ List.lookup "voltage" [("voltage_rms", Value.num 120)] = none
    ∧ ¬ (calcComponents [⟨1, "Battery", 2, 2, [("voltage_rms", Value.num 120)]⟩]).map
        AnalysisResult.voltage_sources = some [0] := by
  refine ⟨?_, by simp [List.lookup], ?_⟩ <;>
    simp [calcComponents, analyzeComponent, finishAnalysis, pyGet, asNum, pyTruthy,
          List.lookup, List.foldlM, initResults] <;> norm_num

/-- C4 (amended): for every Battery or AC Source the voltage appended to
`voltage_sources` (in circuit order) is `params.get('voltage', 0)` when
that value is truthy (nonzero) and `params.get('voltage_rms', 0)`
otherwise — the same `or`-fallback rule for both types (`effVoltQ`); each
such component's `calculated` is `max_power = (effective voltage)² /
internal_resistance`, with 1 substituted exactly when
`internal_resistance` is absent from the params dict. -/
theorem C4_sources (cs : List Component) (r : AnalysisResult)
    (h : calcComponents cs = some r) :
    r.voltage_sources = cs.filterMap srcVolt
    ∧ ∀ i (hi : i < cs.length), isSource (cs.get ⟨i, hi⟩) = true →
        ∃ hj : i < r.component_analysis.length,
          (r.component_analysis.get ⟨i, hj⟩).calculated =
            some [("max_power",
              CalcVal.fin (effVoltQ (cs.get ⟨i, hi⟩).params ^ 2 /
                getQD (cs.get ⟨i, hi⟩).params "internal_resistance" 1))] := by
  refine ⟨(calc_fields cs r h).2.2.2.1, ?_⟩
  intro i hi hsrc
  obtain ⟨hj, he⟩ := calc_entry cs r h i hi
  refine ⟨hj, ?_⟩
  rw [he]
  show calculatedSpec (cs.get ⟨i, hi⟩) = _
  rw [isSource, Bool.or_eq_true, beq_iff_eq, beq_iff_eq] at hsrc
  exact calculatedSpec_source _ hsrc

theorem C4_sources_witness :
    ((calcComponents csC4w).getD initResults).voltage_sources =
      csC4w.filterMap srcVolt :=
  (C4_sources csC4w ((calcComponents csC4w).getD initResults)
    (by
      simp [csC4w, calcComponents, analyzeComponent, pyGet, asNum, pyTruthy,
            List.lookup, List.foldlM, initResults] <;>
      norm_num [finishAnalysis])).1

/-- C5 counterexample: a Load with power = -100 and voltage = 10 has
current = -10 ≤ 0, so its calculated `resistance` is `+infinity` even
though its power parameter is nonzero — the infinity case is not
"reachable only when power == 0". -/
theorem C5_negative_power_cex :
    (calcComponents [⟨1, "Load", 2, 2,
        [("power", Value.num (-100)), ("voltage", Value.num 10),
         ("type", Value.str "Resistive")]⟩]).map
      (fun r => r.component_analysis.map ComponentAnalysis.calculated)
      = some [some [("current", CalcVal.fin (-10)), ("resistance", CalcVal.inf)]]
    ∧ (-100 : ℚ) ≠ 0 := by
  constructor
  · simp [calcComponents, analyzeComponent, finishAnalysis, pyGet, asNum, pyTruthy,
          List.lookup, List.foldlM, initResults] <;> norm_num
  · norm_num

/-- C5 (amended): every Load adds its power parameter to
`power_consumption` unconditionally; its `calculated` dict is present
exactly when its voltage parameter is > 0, with `current = power/voltage`
and `resistance = voltage/current`, where `resistance = +infinity` exactly
when `current ≤ 0`, i.e. exactly when `power ≤ 0` (not only when
`power == 0`); a Load with power = 100 and voltage = 0 has no
`calculated` dict yet still contributes 100 to `power_consumption`. -/
theorem C5_load (cs : List Component) (r : AnalysisResult)
    (h : calcComponents cs = some r) :
    r.power_consumption = (cs.map loadPower).sum
    ∧ (∀ i (hi : i < cs.length), (cs.get ⟨i, hi⟩).type = "Load" →
        ∃ hj : i < r.component_analysis.length,
          (r.component_analysis.get ⟨i, hj⟩).calculated =
            (if getQD (cs.get ⟨i, hi⟩).params "voltage" 0 > 0 then
              some [("current", CalcVal.fin (getQD (cs.get ⟨i, hi⟩).params "power" 0 /
                      getQD (cs.get ⟨i, hi⟩).params "voltage" 0)),
                    ("resistance",
                      if getQD (cs.get ⟨i, hi⟩).params "power" 0 > 0 then
                        CalcVal.fin (getQD (cs.get ⟨i, hi⟩).params "voltage" 0 /
                          (getQD (cs.get ⟨i, hi⟩).params "power" 0 /
                           getQD (cs.get ⟨i, hi⟩).params "voltage" 0))
                      else CalcVal.inf)]
            else none))
    ∧ (calcComponents [⟨1, "Load", 2, 2,
          [("power", Value.num 100), ("voltage", Value.num 0),
           ("type", Value.str "Resistive")]⟩]).map
        (fun r2 => (r2.power_consumption,
                    r2.component_analysis.map ComponentAnalysis.calculated))
        = some (100, [none]) := by
  refine ⟨(calc_fields cs r h).2.2.1, ?_, ?_⟩
  · intro i hi ht
    obtain ⟨hj, he⟩ := calc_entry cs r h i hi
    refine ⟨hj, ?_⟩
    rw [he]
    show calculatedSpec (cs.get ⟨i, hi⟩) = _
    exact calculatedSpec_load _ ht
  · simp [calcComponents, analyzeComponent, finishAnalysis, pyGet, asNum, pyTruthy,
          List.lookup, List.foldlM, initResults] <;> norm_num

theorem C5_load_witness :
    ((calcComponents csC5w).getD initResults).power_consumption =
      (csC5w.map loadPower).sum :=
  (C5_load csC5w ((calcComponents csC5w).getD initResults)
    (by
      simp [csC5w, calcComponents, analyzeComponent, pyGet, asNum, pyTruthy,
            List.lookup, List.foldlM, initResults] <;>
      norm_num [finishAnalysis])).1

theorem addMany_spec (specs : List (String × ℚ × ℚ)) (s : WorkbenchState)
    (h : ∀ sp ∈ specs, (COMPONENTS.lookup sp.1).isSome = true) :
    ∃ s1, addMany s specs = some s1
      ∧ s1.component_counter = s.component_counter + specs.length
      ∧ s1.circuit_components.map Component.id =
          s.circuit_components.map Component.id ++
          List.range' (s.component_counter + 1) specs.length
      ∧ s1.connections = s.connections
      ∧ s1.analysis_results = s.analysis_results := by
  induction specs generalizing s with
  | nil => exact ⟨s, rfl, by simp, by simp, rfl, rfl⟩
  | cons sp rest ih =>
    obtain ⟨defaults, hd⟩ :=
      Option.isSome_iff_exists.mp (h sp (List.mem_cons_self _ _))
    have hstep : addComponent s sp.1 sp.2.1 sp.2.2 = some
        { s with
          component_counter := s.component_counter + 1
          circuit_components := s.circuit_components ++
            [{ id := s.component_counter + 1, type := sp.1, x := sp.2.1,
               y := sp.2.2, params := defaults }] } := by
      unfold addComponent
      rw [hd]
    obtain ⟨s1, h1, h2, h3, h4, h5⟩ :=
      ih _ (fun x hx => h x (List.mem_cons_of_mem _ hx))
    refine ⟨s1, ?_, ?_, ?_, ?_, ?_⟩
    · rw [addMany, hstep]
      exact h1
    · rw [h2]
      simp
      ring
    · rw [h3]
      simp
      rw [List.range'_succ]
    · exact h4
    · exact h5

/-- C6: starting from the initial (empty) session, adding N components of
any type mix assigns ids 1..N in allocation order (the counter is
pre-incremented, so a single add from any state assigns
`component_counter + 1`); clearing resets components, connections and the
counter to empty/0, and re-adding the same components numbers them from 1
again. -/
theorem C6_ids (specs : List (String × ℚ × ℚ))
    (h : ∀ sp ∈ specs, (COMPONENTS.lookup sp.1).isSome = true) :
    (∃ s1, addMany initialState specs = some s1
      ∧ s1.circuit_components.map Component.id = List.range' 1 specs.length
      ∧ s1.component_counter = specs.length
      ∧ (clearCircuit s1).circuit_components = []
      ∧ (clearCircuit s1).connections = []
      ∧ (clearCircuit s1).component_counter = 0
      ∧ ∃ s2, addMany (clearCircuit s1) specs = some s2
          ∧ s2.circuit_components.map Component.id = List.range' 1 specs.length)
    ∧ (∀ (s : WorkbenchState) (ty : String) (x y : ℚ) (s1 : WorkbenchState),
        addComponent s ty x y = some s1 →
          s1.component_counter = s.component_counter + 1
          ∧ s1.circuit_components.map Component.id =
              s.circuit_components.map Component.id ++ [s.component_counter + 1]) := by
  constructor
  · obtain ⟨s1, h1, h2, h3, h4, h5⟩ := addMany_spec specs initialState h
    refine ⟨s1, h1, ?_, ?_, rfl, rfl, rfl, ?_⟩
    · rw [h3]
      simp [initialState]
    · rw [h2]
      simp [initialState]
    · obtain ⟨s2, g1, g2, g3, g4, g5⟩ := addMany_spec specs (clearCircuit s1) h
      refine ⟨s2, g1, ?_⟩
      rw [g3]
      simp [clearCircuit]
  · intro s ty x y s1 h1
    unfold addComponent at h1
    cases hd : COMPONENTS.lookup ty with
    | none =>
      rw [hd] at h1
      exact absurd h1 (by simp)
    | some defaults =>
      rw [hd] at h1
      cases h1
      simp

theorem C6_ids_witness :
    ∃ s1, addMany initialState specsC6w = some s1
      ∧ s1.circuit_components.map Component.id = List.range' 1 specsC6w.length
      ∧ s1.component_counter = specsC6w.length
      ∧ (clearCircuit s1).circuit_components = []
      ∧ (clearCircuit s1).connections = []
      ∧ (clearCircuit s1).component_counter = 0
      ∧ ∃ s2, addMany (clearCircuit s1) specsC6w = some s2
          ∧ s2.circuit_components.map Component.id = List.range' 1 specsC6w.length :=
  (C6_ids specsC6w (by simp [specsC6w, COMPONENTS, List.lookup])).1

/-- C7: every Capacitor contributes its capacitance to `total_capacitance`
only when it is positive, and its `calculated` dict always holds
`energy_stored = 0.5 × capacitance × voltage_rating²` together with
`reactance_60hz = 1/(2·π·60·capacitance)` for positive capacitance and
`+infinity` otherwise (π being the `np.pi` double); with
capacitance = 100e-6 and voltage_rating = 25 this gives
`energy_stored = 0.03125` and `reactance_60hz ≈ 26.526` (within 0.001). -/
theorem C7_capacitor (cs : List Component) (r : AnalysisResult)
    (h : calcComponents cs = some r) :
    r.total_capacitance = (cs.map capContrib).sum
    ∧ (∀ i (hi : i < cs.length), (cs.get ⟨i, hi⟩).type = "Capacitor" →
        ∃ hj : i < r.component_analysis.length,
          (r.component_analysis.get ⟨i, hj⟩).calculated =
            some [("energy_stored",
                    CalcVal.fin (0.5 * getQD (cs.get ⟨i, hi⟩).params "capacitance" 0 *
                      getQD (cs.get ⟨i, hi⟩).params "voltage_rating" 0 ^ 2)),
                  ("reactance_60hz",
                    if getQD (cs.get ⟨i, hi⟩).params "capacitance" 0 > 0 then
                      CalcVal.fin (1 / (2 * npPi * 60 *
                        getQD (cs.get ⟨i, hi⟩).params "capacitance" 0))
                    else CalcVal.inf)])
    ∧ (calcComponents csC7).map
        (fun r2 => (r2.total_capacitance,
                    r2.component_analysis.map ComponentAnalysis.calculated))
        = some (0.0001,
            [some [("energy_stored", CalcVal.fin 0.03125),
                   ("reactance_60hz", CalcVal.fin (1 / (2 * npPi * 60 * 0.0001)))]])
    ∧ |1 / (2 * npPi * 60 * (0.0001 : ℚ)) - 26.526| < 0.001 := by
  refine ⟨(calc_fields cs r h).2.1, ?_, ?_, ?_⟩
  · intro i hi ht
    obtain ⟨hj, he⟩ := calc_entry cs r h i hi
    refine ⟨hj, ?_⟩
    rw [he]
    show calculatedSpec (cs.get ⟨i, hi⟩) = _
    exact calculatedSpec_capacitor _ ht
  · simp [csC7, calcComponents, analyzeComponent, finishAnalysis, pyGet, asNum,
          pyTruthy, List.lookup, List.foldlM, initResults] <;> norm_num [npPi]
  · rw [abs_sub_lt_iff]
    norm_num [npPi]

theorem C7_capacitor_witness :
    ((calcComponents csC7).getD initResults).total_capacitance =
      (csC7.map capContrib).sum :=
  (C7_capacitor csC7 ((calcComponents csC7).getD initResults)
    (by
      simp [csC7, calcComponents, analyzeComponent, pyGet, asNum, pyTruthy,
            List.lookup, List.foldlM, initResults] <;>
      norm_num [finishAnalysis])).1

theorem find?_updateFirstParams (l : List Component) (compId : Nat) (np : Params)
    (c : Component) (h : l.find? (fun c2 => c2.id == compId) = some c) :
    (updateFirstParams l compId np).find? (fun c2 => c2.id == compId) =
      some { c with params := np } := by
  induction l with
  | nil => simp [List.find?] at h
  | cons c1 rest ih =>
    by_cases h1 : c1.id = compId
    · rw [List.find?_cons_of_pos _ (by simp [h1])] at h
      cases h
      unfold updateFirstParams
      rw [if_pos h1]
      exact List.find?_cons_of_pos _ (by simp [h1])
    · rw [List.find?_cons_of_neg _ (by simp [h1])] at h
      unfold updateFirstParams
      rw [if_neg h1, List.find?_cons_of_neg _ (by simp [h1])]
      exact ih h

/-- C8: `updateParams` fails with `ComponentNotFound` exactly when no
component carries the requested id, in which case the state is unchanged;
otherwise it replaces the found component's entire params dict with
`newParams`, so every key absent from `newParams` is absent from the
component's params afterwards (full replace, never a merge). -/
theorem C8_updateParams (s : WorkbenchState) (compId : Nat) (newParams : Params) :
    ((updateParams s compId newParams).2 = some UpdateError.ComponentNotFound ↔
      ∀ c ∈ s.circuit_components, c.id ≠ compId)
    ∧ ((updateParams s compId newParams).2.isSome →
        (updateParams s compId newParams).1 = s)
    ∧ (∀ c, s.circuit_components.find? (fun c2 => c2.id == compId) = some c →
        (updateParams s compId newParams).1.circuit_components.find?
            (fun c2 => c2.id == compId) = some { c with params := newParams }
        ∧ ∀ k, newParams.lookup k = none →
            ({ c with params := newParams } : Component).params.lookup k = none) := by
  refine ⟨?_, ?_, ?_⟩
  · unfold updateParams
    cases hf : s.circuit_components.find? (fun c2 => c2.id == compId) with
    | none =>
      simp only [Option.some.injEq, true_iff]
      rw [List.find?_eq_none] at hf
      intro c hc
      simpa using hf c hc
    | some c =>
      simp only []
      constructor
      · intro hx
        simp at hx
      · intro hall
        exfalso
        have hc := List.mem_of_find?_eq_some hf
        have hid := List.find?_some hf
        exact hall c hc (by simpa using hid)
  · unfold updateParams
    cases hf : s.circuit_components.find? (fun c2 => c2.id == compId) with
    | none => intro _; rfl
    | some c => intro hx; simp at hx
  · intro c hf
    refine ⟨?_, fun k hk => hk⟩
    unfold updateParams
    rw [hf]
    exact find?_updateFirstParams s.circuit_components compId newParams c hf

theorem C8_updateParams_witness :
    (updateParams sC8w 1 [("power", Value.num 60)]).1.circuit_components.find?
        (fun c2 => c2.id == 1) =
      some ⟨1, "Load", 2, 2, [("power", Value.num 60)]⟩
    ∧ (⟨1, "Load", 2, 2, [("power", Value.num 60)]⟩ : Component).params.lookup
        "voltage" = none :=
  have h := (C8_updateParams sC8w 1 [("power", Value.num 60)]).2.2
    ⟨1, "Load", 2, 2, [("power", Value.num 100), ("voltage", Value.num 12)]⟩
    (by simp [sC8w, List.find?])
  ⟨h.1, h.2 "voltage" (by simp [List.lookup])⟩

/-- C9: Clear-Circuit empties components and connections and resets the
counter, but leaves the stored analysis result untouched (stale); no other
mutating handler touches it either — it is only replaced by an explicit
Analyze-Circuit run. -/
theorem C9_clear_frame (s : WorkbenchState) :
    (clearCircuit s).analysis_results = s.analysis_results
    ∧ (clearCircuit s).circuit_components = []
    ∧ (clearCircuit s).connections = []
    ∧ (clearCircuit s).component_counter = 0
    ∧ (∀ ty x y s1, addComponent s ty x y = some s1 →
        s1.analysis_results = s.analysis_results)
    ∧ (∀ a b, (addConnection s a b).1.analysis_results = s.analysis_results)
    ∧ (∀ i np, (updateParams s i np).1.analysis_results = s.analysis_results)
    ∧ (∀ r, s.circuit_components ≠ [] → calcComponents s.circuit_components = some r →
        (analyzeCircuit s).analysis_results = some r) := by
  refine ⟨rfl, rfl, rfl, rfl, ?_, ?_, ?_, ?_⟩
  · intro ty x y s1 h1
    unfold addComponent at h1
    cases hd : COMPONENTS.lookup ty with
    | none =>
      rw [hd] at h1
      exact absurd h1 (by simp)
    | some defaults =>
      rw [hd] at h1
      cases h1
      rfl
  · intro a b
    unfold addConnection
    by_cases hab : a ≠ b
    · rw [if_pos hab]
      by_cases hm : (⟨a, b⟩ : Connection) ∉ s.connections
      · rw [if_pos hm]
      · rw [if_neg hm]
    · rw [if_neg hab]
  · intro i np
    unfold updateParams
    cases hf : s.circuit_components.find? (fun c2 => c2.id == i) <;> rfl
  · intro r hne hc
    unfold analyzeCircuit
    rw [if_pos hne, hc]

theorem C9_clear_frame_witness :
    (clearCircuit (analyzeCircuit ⟨csC1w, [], none, 3⟩)).analysis_results =
      (analyzeCircuit ⟨csC1w, [], none, 3⟩).analysis_results ∧
    (analyzeCircuit ⟨csC1w, [], none, 3⟩).analysis_results =
      some ((calcComponents csC1w).getD initResults) :=
  ⟨(C9_clear_frame (analyzeCircuit ⟨csC1w, [], none, 3⟩)).1,
   (C9_clear_frame ⟨csC1w, [], none, 3⟩).2.2.2.2.2.2.2
     ((calcComponents csC1w).getD initResults)
     (by simp [csC1w])
     (by
       simp [csC1w, calcComponents, analyzeComponent, pyGet, asNum, pyTruthy,
             List.lookup, List.foldlM, initResults] <;>
       norm_num [finishAnalysis])⟩

/-- C10: the analysis depends only on the component sequence of the
session state — two states with identical component lists (and arbitrary
connection sets) produce identical analysis results — and the
Analyze-Circuit handler never reads or modifies the connection set, the
component list or the counter. -/
theorem C10_connections_independent (s1 s2 : WorkbenchState)
    (h : s1.circuit_components = s2.circuit_components) :
    calculate_circuit_parameters s1 = calculate_circuit_parameters s2
    ∧ (analyzeCircuit s1).connections = s1.connections
    ∧ (analyzeCircuit s1).circuit_components = s1.circuit_components
    ∧ (analyzeCircuit s1).component_counter = s1.component_counter := by
  refine ⟨by unfold calculate_circuit_parameters; rw [h], ?_, ?_, ?_⟩ <;>
  · unfold analyzeCircuit
    by_cases hne : s1.circuit_components ≠ []
    · rw [if_pos hne]
      cases hc : calcComponents s1.circuit_components <;> simp [hc]
    · rw [if_neg hne]

theorem C10_connections_independent_witness :
    calculate_circuit_parameters ⟨csC1w, [], none, 3⟩ =
      calculate_circuit_parameters ⟨csC1w, [⟨1, 2⟩], some initResults, 7⟩ :=
  (C10_connections_independent ⟨csC1w, [], none, 3⟩
    ⟨csC1w, [⟨1, 2⟩], some initResults, 7⟩ rfl).1
